import Mathlib

/-!
Verification of the authentication utilities of the Auth-Starter repository:
the device-confidence scorer, the two-factor requirement resolver, the phone
number validator, and the sign-up / forgot-password request handlers.

The definitions below are shallow embeddings of the TypeScript sources in
`src/utils/auth.ts`, `src/utils/validation/auth-validation.ts`,
`src/app/api/auth/email/signup/route.ts` and the forgot-password route.
JavaScript values that may be `undefined`/`null` are modelled as `Option`,
JS string truthiness (`undefined`, `null` and `""` are falsy) is modelled
explicitly, and thrown errors become `Except.error`.
-/

/-- Modelled from the spec: the `TDeviceInfo` type lives in `types/auth`,
which is not among the sources; the spec describes a device fingerprint with
attributes `device_name`, `browser`, `os` and `ip_address`, and notes that
fields may be missing/null (the scorer guards `os` and `ip_address` for
presence), so every attribute is modelled as an optional string. -/
structure TDeviceInfo where
  device_name : Option String
  browser : Option String
  os : Option String
  ip_address : Option String
deriving DecidableEq, Repr

/-- Modelled from the spec: a historical device session pairs a device
fingerprint with an (irrelevant here) session identity. -/
structure TDeviceSession where
  device : TDeviceInfo
deriving DecidableEq, Repr

/-- JS string truthiness of a possibly-absent string: `undefined`, `null`
and the empty string are falsy. -/
def truthyStr : Option String → Bool
  | none => false
  | some s => s != ""

/-- JS `s.split(sep)` for a single-character separator, on the character
list of the string: splitting the empty string yields one empty group. -/
def splitOnChar (sep : Char) : List Char → List (List Char)
  | [] => [[]]
  | c :: cs =>
    if c = sep then [] :: splitOnChar sep cs
    else
      match splitOnChar sep cs with
      | [] => [[c]]
      | g :: gs => (c :: g) :: gs

/-- Embeds `os.split(" ")[0]` from `calculateDeviceConfidence`. -/
def osBase (os : String) : List Char := (splitOnChar ' ' os.data).headD []

/-- Embeds `ip.split(".").slice(0, 3).join(".")` from
`calculateDeviceConfidence`. -/
def ipFirstThree (ip : String) : List Char :=
  List.intercalate ['.'] ((splitOnChar '.' ip.data).take 3)

/-- Device name match (30 points): `stored.device_name === current.device_name`. -/
def deviceNameScore (stored current : TDeviceInfo) : Nat :=
  if stored.device_name = current.device_name then 30 else 0

/-- Browser match (20 points): `stored.browser === current.browser`. -/
def browserScore (stored current : TDeviceInfo) : Nat :=
  if stored.browser = current.browser then 20 else 0

/-- OS match, base name only (20 points), guarded by
`if (stored.os && current.os)`. -/
def osScore (stored current : TDeviceInfo) : Nat :=
  if truthyStr stored.os && truthyStr current.os then
    if osBase (stored.os.getD "") = osBase (current.os.getD "") then 20 else 0
  else 0

/-- IP range match (15 points), guarded by
`if (stored.ip_address && current.ip_address)`. -/
def ipScore (stored current : TDeviceInfo) : Nat :=
  if truthyStr stored.ip_address && truthyStr current.ip_address then
    if ipFirstThree (stored.ip_address.getD "") = ipFirstThree (current.ip_address.getD "")
    then 15 else 0
  else 0

/-- Per-session score of `calculateDeviceConfidence`: the body of the
`storedSessions.map` callback, which starts at 0 and adds the four weights. -/
def sessionScore (stored current : TDeviceInfo) : Nat :=
  deviceNameScore stored current + browserScore stored current +
    osScore stored current + ipScore stored current

/-- Embeds `calculateDeviceConfidence` from `src/utils/auth.ts`:
`!storedSessions?.length` (null or empty history) returns 100, otherwise the
maximum per-session score (`Math.max(...scores)`, over a non-empty list of
naturals, equals the fold of `max` from 0). -/
def calculateDeviceConfidence
    (storedSessions : Option (List TDeviceSession)) (current : TDeviceInfo) : Nat :=
  match storedSessions with
  | none => 100
  | some [] => 100
  | some sessions =>
    let scores := sessions.map (fun session => sessionScore session.device current)
    scores.foldl Nat.max 0

/-- Embeds `getConfidenceLevel` from `src/utils/auth.ts`. -/
def getConfidenceLevel (score : Nat) : String :=
  if score ≥ 70 then "high"
  else if score ≥ 40 then "medium"
  else "low"

/-- Modelled from the spec: the `TTwoFactorMethod` type lives in `types/auth`,
which is not among the sources; the validation schemas and the spec give it
exactly the two values "authenticator" and "sms". -/
inductive TTwoFactorMethod where
  | authenticator : TTwoFactorMethod
  | sms : TTwoFactorMethod
deriving DecidableEq, Repr, BEq

/-- A two-factor method paired with its provider-assigned factor id, the
element type of `availableMethods` in `checkTwoFactorRequirements`. -/
structure AvailableMethod where
  type : TTwoFactorMethod
  factorId : String
deriving DecidableEq, Repr

/-- An enrolled factor as the provider call `listFactors` returns it:
an opaque id and a status string (the code only inspects "verified"). -/
structure EnrolledFactor where
  id : String
  status : String
deriving DecidableEq, Repr

/-- The `data` object of `supabase.auth.mfa.listFactors()`: the code reads
`data?.totp` and `data?.phone`, so both lists may themselves be absent. -/
structure ListFactorsData where
  totp : Option (List EnrolledFactor)
  phone : Option (List EnrolledFactor)
deriving DecidableEq, Repr

/-- Modelled from the spec: one entry of `AUTH_CONFIG.twoFactorAuth.methods`
(the config module is not among the sources); the spec gives the shape
`methods: [{type, enabled}]`. -/
structure MethodConfig where
  type : TTwoFactorMethod
  enabled : Bool
deriving DecidableEq, Repr

/-- Modelled from the spec: `AUTH_CONFIG.twoFactorAuth`, of shape
`{ enabled: bool, methods: [{type, enabled}] }`. -/
structure TwoFactorAuthConfig where
  enabled : Bool
  methods : List MethodConfig
deriving DecidableEq, Repr

/-- The result type `TwoFactorRequirement`: `{ requiresTwoFactor: false }`, or
`{ requiresTwoFactor: true, factorId, availableMethods }`. -/
inductive TwoFactorRequirement where
  | notRequired : TwoFactorRequirement
  | required (factorId : String) (availableMethods : List AvailableMethod) :
      TwoFactorRequirement
deriving DecidableEq, Repr

/-- Embeds `getMostTrustedTwoFactorMethod` from `src/utils/auth.ts`:
`null`/empty input gives `null`; otherwise the first authenticator-type
method, else the first sms-type method, else `null`. -/
def getMostTrustedTwoFactorMethod
    (methods : Option (List AvailableMethod)) : Option AvailableMethod :=
  match methods with
  | none => none
  | some ms =>
    if ms.length = 0 then none
    else
      match ms.find? (fun m => m.type == TTwoFactorMethod.authenticator) with
      | some authenticator => some authenticator
      | none =>
        match ms.find? (fun m => m.type == TTwoFactorMethod.sms) with
        | some sms => some sms
        | none => none

/-- The TOTP block of `checkTwoFactorRequirements`: if `data?.totp` is
present, filter for status "verified" and, when non-empty, push
`{ type: "authenticator", factorId: verifiedTOTP[0].id }`. -/
def totpMethods (data : Option ListFactorsData) : List AvailableMethod :=
  match data with
  | none => []
  | some d =>
    match d.totp with
    | none => []
    | some factors =>
      match factors.filter (fun f => f.status == "verified") with
      | [] => []
      | f :: _ => [{ type := TTwoFactorMethod.authenticator, factorId := f.id }]

/-- The SMS block of `checkTwoFactorRequirements`: if `data?.phone` is
present, filter for status "verified" and, when non-empty, push
`{ type: "sms", factorId: verifiedSMS[0].id }`. -/
def smsMethods (data : Option ListFactorsData) : List AvailableMethod :=
  match data with
  | none => []
  | some d =>
    match d.phone with
    | none => []
    | some factors =>
      match factors.filter (fun f => f.status == "verified") with
      | [] => []
      | f :: _ => [{ type := TTwoFactorMethod.sms, factorId := f.id }]

/-- The `availableMethods` array built by `checkTwoFactorRequirements`:
the TOTP entry (if any) followed by the SMS entry (if any). -/
def availableMethodsOf (data : Option ListFactorsData) : List AvailableMethod :=
  totpMethods data ++ smsMethods data

/-- Embeds `checkTwoFactorRequirements` from `src/utils/auth.ts`. The ambient
`AUTH_CONFIG.twoFactorAuth` and the outcome of the provider call
`supabase.auth.mfa.listFactors()` are passed explicitly; a thrown `Error`
becomes `Except.error` with the thrown message. -/
def checkTwoFactorRequirements (config : TwoFactorAuthConfig)
    (factorsResult : Except String (Option ListFactorsData)) :
    Except String TwoFactorRequirement :=
  if !config.enabled then Except.ok TwoFactorRequirement.notRequired
  else
    let enabledMethods := config.methods.filter (fun m => m.enabled)
    if enabledMethods.length = 0 then Except.ok TwoFactorRequirement.notRequired
    else
      match factorsResult with
      | Except.error _ => Except.error "Failed to check 2FA status"
      | Except.ok data =>
        let availableMethods := availableMethodsOf data
        if availableMethods.length > 0 then
          match getMostTrustedTwoFactorMethod (some availableMethods) with
          | none => Except.error "No default 2FA method found"
          | some defaultMethod =>
            Except.ok (TwoFactorRequirement.required defaultMethod.factorId availableMethods)
        else Except.ok TwoFactorRequirement.notRequired

/-- Embeds the regex `^\+[1-9]\d\x7b1,14\x7d$` of `phoneSchema` in
`src/utils/validation/auth-validation.ts`: a "+", a digit 1-9, then 1 to 14
further digits. -/
def phoneRegexMatch (s : String) : Bool :=
  match s.data with
  | '+' :: d :: rest =>
    ('1' ≤ d && d ≤ '9') && rest.all Char.isDigit &&
      decide (1 ≤ rest.length) && decide (rest.length ≤ 14)
  | _ => false

/-- Embeds `validatePhoneNumber` (its `isValid` field): `phoneSchema` is
`min(1)` chained with the E.164 regex, and `safeParse` succeeds exactly when
both constraints hold. -/
def validatePhoneNumber (s : String) : Bool :=
  decide (1 ≤ s.length) && phoneRegexMatch s

/-- Responses a route handler can produce, keyed by status code and the
error body where one is sent. -/
inductive ApiResponse where
  | tooManyRequests : ApiResponse
  | badRequest (error : String) : ApiResponse
  | okEmpty : ApiResponse
  | serverError (error : String) : ApiResponse
deriving DecidableEq, Repr

/-- Embeds the forgot-password `POST` handler (the route that calls
`supabase.auth.resetPasswordForEmail`). The rate-limit outcome, the email
validation verdict and the error (if any) of the provider call are passed in;
the handler logs a provider error but still answers `200 \x7b\x7d`. -/
def forgotPasswordPOST (rateLimited : Bool) (emailValid : Bool)
    (resetError : Option String) : ApiResponse :=
  if rateLimited then ApiResponse.tooManyRequests
  else if !emailValid then ApiResponse.badRequest "Invalid email"
  else
    match resetError with
    | some _ => ApiResponse.okEmpty
    | none => ApiResponse.okEmpty

/-- Outcome of `supabase.auth.signUp` as the sign-up route reads it:
`data?.user?.identities?.length` (absent when any link is null) and
`error?.message`. -/
structure SignUpOutcome where
  identitiesLength : Option Nat
  authErrorMessage : Option String
deriving DecidableEq, Repr

/-- Embeds the sign-up `POST` handler from
`src/app/api/auth/email/signup/route.ts`: after rate limiting and form
validation it calls `supabase.auth.signUp`; a result whose user carries zero
identities answers `400` "This email is already registered...", a provider
error answers `400` with the provider message, otherwise `200 \x7b\x7d`. -/
def signupPOST (rateLimited : Bool) (validationError : Option String)
    (outcome : SignUpOutcome) : ApiResponse :=
  if rateLimited then ApiResponse.tooManyRequests
  else
    match validationError with
    | some e => ApiResponse.badRequest e
    | none =>
      if outcome.identitiesLength = some 0 then
        ApiResponse.badRequest
          "This email is already registered. Please try logging in instead."
      else
        match outcome.authErrorMessage with
        | some msg => ApiResponse.badRequest msg
        | none => ApiResponse.okEmpty

/-- Reference per-session score, following the claimed specification word for
word: +30 for exact device_name match, +20 for exact browser match, +20 when
the substrings before the first space of both OS strings (both present) are
equal, +15 when the first three dot-separated octets of both IP strings
(both present and non-empty) are equal. -/
def refSessionScore (stored current : TDeviceInfo) : Nat :=
  (if stored.device_name = current.device_name then 30 else 0) +
    (if stored.browser = current.browser then 20 else 0) +
    (match stored.os, current.os with
     | some so, some co => if osBase so = osBase co then 20 else 0
     | _, _ => 0) +
    (match stored.ip_address, current.ip_address with
     | some si, some ci =>
       if si ≠ "" ∧ ci ≠ "" ∧ ipFirstThree si = ipFirstThree ci then 15 else 0
     | _, _ => 0)

/-- Reference confidence score, following the claimed specification: 100 for
empty or absent history, otherwise the maximum of `refSessionScore` over the
sessions. -/
def refConfidence
    (history : Option (List TDeviceSession)) (current : TDeviceInfo) : Nat :=
  match history with
  | none => 100
  | some [] => 100
  | some sessions =>
    (sessions.map (fun session => refSessionScore session.device current)).foldl Nat.max 0

/-- Amended reference per-session score: as `refSessionScore`, except that
the OS weight also demands both OS strings non-empty (mirroring the IP
weight), matching the JS truthiness guard of the code. -/
def refSessionScoreAmended (stored current : TDeviceInfo) : Nat :=
  (if stored.device_name = current.device_name then 30 else 0) +
    (if stored.browser = current.browser then 20 else 0) +
    (match stored.os, current.os with
     | some so, some co => if so ≠ "" ∧ co ≠ "" ∧ osBase so = osBase co then 20 else 0
     | _, _ => 0) +
    (match stored.ip_address, current.ip_address with
     | some si, some ci =>
       if si ≠ "" ∧ ci ≠ "" ∧ ipFirstThree si = ipFirstThree ci then 15 else 0
     | _, _ => 0)

/-- Amended reference confidence score built on `refSessionScoreAmended`. -/
def refConfidenceAmended
    (history : Option (List TDeviceSession)) (current : TDeviceInfo) : Nat :=
  match history with
  | none => 100
  | some [] => 100
  | some sessions =>
    (sessions.map (fun session => refSessionScoreAmended session.device current)).foldl Nat.max 0

/-- The E.164 shape exactly as the claimed specification words it: a "+"
followed by 2 to 15 digits. -/
def e164SpecShape (s : String) : Bool :=
  match s.data with
  | '+' :: digits =>
    digits.all Char.isDigit && decide (2 ≤ digits.length) && decide (digits.length ≤ 15)
  | _ => false

/-- The amended E.164 shape: a "+", a nonzero digit, then 1 to 14 further
digits (2 to 15 digits in total, the first of them in 1-9). -/
def e164AmendedShape (s : String) : Bool :=
  match s.data with
  | '+' :: d :: rest =>
    ('1' ≤ d && d ≤ '9') && rest.all Char.isDigit &&
      decide (1 ≤ rest.length) && decide (rest.length ≤ 14)
  | _ => false

/-- A fold of `Nat.max` stays below a bound that dominates the seed and
every element. -/
theorem foldlMax_le (b : Nat) (l : List Nat) :
    ∀ (a : Nat), a ≤ b → (∀ x ∈ l, x ≤ b) → l.foldl Nat.max a ≤ b := by
  induction l with
  | nil =>
    intro a ha _
    simpa using ha
  | cons x xs ih =>
    intro a ha hx
    simp only [List.foldl_cons]
    exact ih _ (Nat.max_le.mpr ⟨ha, hx x (by simp)⟩) (fun y hy => hx y (by simp [hy]))

/-- Each per-session score is at most 30 + 20 + 20 + 15 = 85. -/
theorem sessionScore_le (stored current : TDeviceInfo) : sessionScore stored current ≤ 85 := by
  have h1 : deviceNameScore stored current ≤ 30 := by
    unfold deviceNameScore
    split <;> simp
  have h2 : browserScore stored current ≤ 20 := by
    unfold browserScore
    split <;> simp
  have h3 : osScore stored current ≤ 20 := by
    unfold osScore
    split
    · split <;> simp
    · simp
  have h4 : ipScore stored current ≤ 15 := by
    unfold ipScore
    split
    · split <;> simp
    · simp
  unfold sessionScore
  omega

/-- On a non-empty history the confidence score is at most 85. -/
theorem confidence_nonempty_le (sessions : List TDeviceSession) (current : TDeviceInfo)
    (h : sessions ≠ []) :
    calculateDeviceConfidence (some sessions) current ≤ 85 := by
  cases sessions with
  | nil => exact absurd rfl h
  | cons s ss =>
    simp only [calculateDeviceConfidence]
    apply foldlMax_le
    · omega
    · intro x hx
      simp only [List.mem_map] at hx
      obtain ⟨sess, _, rfl⟩ := hx
      exact sessionScore_le _ _

/-- The OS weight of the code, rewritten as a match on the two optional OS
strings: both must be present and non-empty and share their base name. -/
theorem osScore_eq (stored current : TDeviceInfo) :
    osScore stored current =
      (match stored.os, current.os with
       | some so, some co => if so ≠ "" ∧ co ≠ "" ∧ osBase so = osBase co then 20 else 0
       | _, _ => 0) := by
  cases hso : stored.os with
  | none => simp [osScore, truthyStr, hso]
  | some so =>
    cases hco : current.os with
    | none => simp [osScore, truthyStr, hso, hco]
    | some co =>
      by_cases h1 : so = "" <;> by_cases h2 : co = "" <;>
        by_cases h3 : osBase so = osBase co <;>
        simp [osScore, truthyStr, hso, hco, h1, h2, h3]

/-- The IP weight of the code, rewritten as a match on the two optional IP
strings: both must be present and non-empty and share their first three
octets. -/
theorem ipScore_eq (stored current : TDeviceInfo) :
    ipScore stored current =
      (match stored.ip_address, current.ip_address with
       | some si, some ci =>
         if si ≠ "" ∧ ci ≠ "" ∧ ipFirstThree si = ipFirstThree ci then 15 else 0
       | _, _ => 0) := by
  cases hsi : stored.ip_address with
  | none => simp [ipScore, truthyStr, hsi]
  | some si =>
    cases hci : current.ip_address with
    | none => simp [ipScore, truthyStr, hsi, hci]
    | some ci =>
      by_cases h1 : si = "" <;> by_cases h2 : ci = "" <;>
        by_cases h3 : ipFirstThree si = ipFirstThree ci <;>
        simp [ipScore, truthyStr, hsi, hci, h1, h2, h3]

/-- The per-session score of the code coincides with the amended reference
per-session score. -/
theorem sessionScore_eq_amended (stored current : TDeviceInfo) :
    sessionScore stored current = refSessionScoreAmended stored current := by
  unfold sessionScore refSessionScoreAmended deviceNameScore browserScore
  rw [osScore_eq, ipScore_eq]

/-- C3 (counterexample): the claimed reference definition awards the OS
weight when both OS strings are the empty string (both "present"), but the
code treats the empty string as falsy and skips the weight: on a history
with one session whose fingerprint differs everywhere except the empty OS
strings, the code scores 0 while the claimed reference scores 20. -/
theorem c3_counterexample :
    calculateDeviceConfidence
        (some [⟨⟨some "a", some "x", some "", none⟩⟩]) ⟨some "b", some "y", some "", none⟩ = 0 ∧
      refConfidence
        (some [⟨⟨some "a", some "x", some "", none⟩⟩]) ⟨some "b", some "y", some "", none⟩ = 20 := by
  decide

/-- C3 (amended): `calculateDeviceConfidence` equals the reference
definition once the OS weight also demands both OS strings non-empty: empty
or absent history gives 100, otherwise the maximum over sessions of the sum
of independent weights (+30 exact device_name match, +20 exact browser
match, +20 equal OS base names with both OS strings present and non-empty,
+15 equal first three IP octets with both IP strings present and
non-empty), with case-sensitive comparison throughout. -/
theorem c3_amended_confidence (history : Option (List TDeviceSession)) (current : TDeviceInfo) :
    calculateDeviceConfidence history current = refConfidenceAmended history current := by
  match history with
  | none => rfl
  | some [] => rfl
  | some (s :: rest) =>
    simp only [calculateDeviceConfidence, refConfidenceAmended]
    have h : (fun session : TDeviceSession => sessionScore session.device current) =
        (fun session : TDeviceSession => refSessionScoreAmended session.device current) :=
      funext (fun sess => sessionScore_eq_amended _ _)
    rw [h]

/-- C4: the confidence score always lies in [0, 100]; on any non-empty
history it lies in [0, 85], so 100 is reached only on the no-history path. -/
theorem c4_confidence_bounds :
    (∀ history current, calculateDeviceConfidence history current ≤ 100) ∧
    (∀ sessions current, sessions ≠ [] →
      0 ≤ calculateDeviceConfidence (some sessions) current ∧
        calculateDeviceConfidence (some sessions) current ≤ 85) ∧
    (∀ history current, calculateDeviceConfidence history current = 100 →
      history = none ∨ history = some []) := by
  refine ⟨?_, ?_, ?_⟩
  · intro history current
    match history with
    | none => simp [calculateDeviceConfidence]
    | some [] => simp [calculateDeviceConfidence]
    | some (s :: rest) =>
      have := confidence_nonempty_le (s :: rest) current (by simp)
      omega
  · intro sessions current h
    exact ⟨Nat.zero_le _, confidence_nonempty_le _ _ h⟩
  · intro history current h
    match history with
    | none => exact Or.inl rfl
    | some [] => exact Or.inr rfl
    | some (s :: rest) =>
      have := confidence_nonempty_le (s :: rest) current (by simp)
      omega

/-- Witness for C4 at a concrete one-session history. -/
theorem c4_confidence_bounds_witness :
    0 ≤ calculateDeviceConfidence
        (some [⟨⟨some "Mac", some "Chrome", some "macOS 14", some "1.2.3.4"⟩⟩])
        ⟨some "Mac", some "Chrome", some "macOS 14", some "1.2.3.4"⟩ ∧
      calculateDeviceConfidence
        (some [⟨⟨some "Mac", some "Chrome", some "macOS 14", some "1.2.3.4"⟩⟩])
        ⟨some "Mac", some "Chrome", some "macOS 14", some "1.2.3.4"⟩ ≤ 85 :=
  c4_confidence_bounds.2.1
    [⟨⟨some "Mac", some "Chrome", some "macOS 14", some "1.2.3.4"⟩⟩]
    ⟨some "Mac", some "Chrome", some "macOS 14", some "1.2.3.4"⟩ (by simp)

/-- C10: the device_name and browser comparisons carry no presence guard:
when stored and current agree on an absent (or empty) device_name the +30 is
awarded, likewise +20 for browser, while an absent OS or IP skips its
weight. -/
theorem c10_no_presence_guard (stored current : TDeviceInfo)
    (hd : (stored.device_name = none ∧ current.device_name = none) ∨
          (stored.device_name = some "" ∧ current.device_name = some ""))
    (hb : (stored.browser = none ∧ current.browser = none) ∨
          (stored.browser = some "" ∧ current.browser = some "")) :
    deviceNameScore stored current = 30 ∧ browserScore stored current = 20 ∧
      (stored.os = none → osScore stored current = 0) ∧
      (stored.ip_address = none → ipScore stored current = 0) := by
  refine ⟨?_, ?_, ?_, ?_⟩
  · rcases hd with ⟨h1, h2⟩ | ⟨h1, h2⟩ <;> simp [deviceNameScore, h1, h2]
  · rcases hb with ⟨h1, h2⟩ | ⟨h1, h2⟩ <;> simp [browserScore, h1, h2]
  · intro h
    simp [osScore, truthyStr, h]
  · intro h
    simp [ipScore, truthyStr, h]

/-- Witness for C10 on the all-absent fingerprint. -/
theorem c10_no_presence_guard_witness :
    deviceNameScore ⟨none, none, none, none⟩ ⟨none, none, none, none⟩ = 30 ∧
      browserScore ⟨none, none, none, none⟩ ⟨none, none, none, none⟩ = 20 ∧
      (TDeviceInfo.os ⟨none, none, none, none⟩ = none →
        osScore ⟨none, none, none, none⟩ ⟨none, none, none, none⟩ = 0) ∧
      (TDeviceInfo.ip_address ⟨none, none, none, none⟩ = none →
        ipScore ⟨none, none, none, none⟩ ⟨none, none, none, none⟩ = 0) :=
  c10_no_presence_guard ⟨none, none, none, none⟩ ⟨none, none, none, none⟩
    (Or.inl ⟨rfl, rfl⟩) (Or.inl ⟨rfl, rfl⟩)

/-- A non-empty method list always yields a most-trusted method, because the
method type enumeration has only the two recognised values. -/
theorem getMostTrusted_isSome (ms : List AvailableMethod) (h : ms ≠ []) :
    ∃ m, getMostTrustedTwoFactorMethod (some ms) = some m := by
  have hlen : ¬ ms.length = 0 := by simpa [List.length_eq_zero] using h
  unfold getMostTrustedTwoFactorMethod
  simp only [hlen, if_false]
  cases hfa : ms.find? (fun m => m.type == TTwoFactorMethod.authenticator) with
  | some a => exact ⟨a, rfl⟩
  | none =>
    cases hfs : ms.find? (fun m => m.type == TTwoFactorMethod.sms) with
    | some s => exact ⟨s, rfl⟩
    | none =>
      exfalso
      obtain ⟨x, hx⟩ := List.exists_mem_of_ne_nil ms h
      have hna := List.find?_eq_none.mp hfa x hx
      have hns := List.find?_eq_none.mp hfs x hx
      cases htype : x.type
      · exact hna (by rw [htype]; rfl)
      · exact hns (by rw [htype]; rfl)

/-- Any method returned by `getMostTrustedTwoFactorMethod` belongs to the
input list. -/
theorem getMostTrusted_mem (ms : List AvailableMethod) (m : AvailableMethod)
    (h : getMostTrustedTwoFactorMethod (some ms) = some m) : m ∈ ms := by
  unfold getMostTrustedTwoFactorMethod at h
  by_cases hlen : ms.length = 0
  · simp [hlen] at h
  · simp only [hlen, if_false] at h
    cases hfa : ms.find? (fun m => m.type == TTwoFactorMethod.authenticator) with
    | some a =>
      rw [hfa] at h
      cases h
      exact List.mem_of_find?_eq_some hfa
    | none =>
      rw [hfa] at h
      cases hfs : ms.find? (fun m => m.type == TTwoFactorMethod.sms) with
      | some s =>
        rw [hfs] at h
        cases h
        exact List.mem_of_find?_eq_some hfs
      | none =>
        rw [hfs] at h
        cases h

/-- With 2FA enabled and at least one configured method, the resolver on a
successful provider answer reduces to method selection over the collected
methods (the defensive error branch never fires). -/
theorem check_enabled_eq (config : TwoFactorAuthConfig) (data : Option ListFactorsData)
    (h1 : config.enabled = true)
    (h2 : config.methods.filter (fun m => m.enabled) ≠ []) :
    checkTwoFactorRequirements config (Except.ok data) =
      match getMostTrustedTwoFactorMethod (some (availableMethodsOf data)) with
      | some m => Except.ok (TwoFactorRequirement.required m.factorId (availableMethodsOf data))
      | none => Except.ok TwoFactorRequirement.notRequired := by
  have hlen : ¬ (config.methods.filter (fun m => m.enabled)).length = 0 := by
    simpa [List.length_eq_zero] using h2
  unfold checkTwoFactorRequirements
  simp only [h1, Bool.not_true, Bool.false_eq_true, if_false, hlen]
  by_cases hav : availableMethodsOf data = []
  · rw [hav]
    simp [getMostTrustedTwoFactorMethod]
  · have hpos : (availableMethodsOf data).length > 0 := by
      cases hl : availableMethodsOf data
      · exact absurd hl hav
      · simp [hl]
    obtain ⟨m, hm⟩ := getMostTrusted_isSome _ hav
    simp only [hpos, if_true, hm]

/-- C2: with one verified authenticator factor and one verified sms factor
the resolver requires 2FA with the authenticator factor as the default, and
in general `getMostTrustedTwoFactorMethod` follows the fixed preference
order: any authenticator-type method beats every sms-type method, and an
sms-type method is selected only when no authenticator-type method exists. -/
theorem c2_default_method_preference :
    (∀ (config : TwoFactorAuthConfig) (d : ListFactorsData)
        (lt lp : List EnrolledFactor) (ft fp : EnrolledFactor),
      config.enabled = true →
      config.methods.filter (fun m => m.enabled) ≠ [] →
      d.totp = some lt → lt.filter (fun f => f.status == "verified") = [ft] →
      d.phone = some lp → lp.filter (fun f => f.status == "verified") = [fp] →
      checkTwoFactorRequirements config (Except.ok (some d)) =
        Except.ok (TwoFactorRequirement.required ft.id
          [⟨TTwoFactorMethod.authenticator, ft.id⟩, ⟨TTwoFactorMethod.sms, fp.id⟩])) ∧
    (∀ (ms : List AvailableMethod) (a : AvailableMethod),
      ms.find? (fun m => m.type == TTwoFactorMethod.authenticator) = some a →
      getMostTrustedTwoFactorMethod (some ms) = some a) ∧
    (∀ (ms : List AvailableMethod) (s : AvailableMethod),
      ms.find? (fun m => m.type == TTwoFactorMethod.authenticator) = none →
      ms.find? (fun m => m.type == TTwoFactorMethod.sms) = some s →
      getMostTrustedTwoFactorMethod (some ms) = some s) := by
  refine ⟨?_, ?_, ?_⟩
  · intro config d lt lp ft fp h1 h2 htotp hft hphone hfp
    have hav : availableMethodsOf (some d) =
        [⟨TTwoFactorMethod.authenticator, ft.id⟩, ⟨TTwoFactorMethod.sms, fp.id⟩] := by
      simp [availableMethodsOf, totpMethods, smsMethods, htotp, hft, hphone, hfp]
    rw [check_enabled_eq config (some d) h1 h2, hav]
    rfl
  · intro ms a hfa
    have hne : ms ≠ [] := by
      intro h
      subst h
      simp [List.find?] at hfa
    have hlen : ¬ ms.length = 0 := by simpa [List.length_eq_zero] using hne
    unfold getMostTrustedTwoFactorMethod
    simp only [hlen, if_false, hfa]
  · intro ms s hfa hfs
    have hne : ms ≠ [] := by
      intro h
      subst h
      simp [List.find?] at hfs
    have hlen : ¬ ms.length = 0 := by simpa [List.length_eq_zero] using hne
    unfold getMostTrustedTwoFactorMethod
    simp only [hlen, if_false, hfa, hfs]

/-- Witness for C2: one verified TOTP factor "t1" and one verified phone
factor "p1" give a required result defaulting to "t1". -/
theorem c2_default_method_preference_witness :
    checkTwoFactorRequirements ⟨true, [⟨TTwoFactorMethod.authenticator, true⟩]⟩
        (Except.ok (some ⟨some [⟨"t1", "verified"⟩], some [⟨"p1", "verified"⟩]⟩)) =
      Except.ok (TwoFactorRequirement.required "t1"
        [⟨TTwoFactorMethod.authenticator, "t1"⟩, ⟨TTwoFactorMethod.sms, "p1"⟩]) :=
  c2_default_method_preference.1 ⟨true, [⟨TTwoFactorMethod.authenticator, true⟩]⟩
    ⟨some [⟨"t1", "verified"⟩], some [⟨"p1", "verified"⟩]⟩
    [⟨"t1", "verified"⟩] [⟨"p1", "verified"⟩] ⟨"t1", "verified"⟩ ⟨"p1", "verified"⟩
    rfl (by decide) rfl (by decide) rfl (by decide)

/-- C5: when the factor-listing call errors (and the configuration check has
not already short-circuited the provider call), the resolver fails with the
upstream lookup error and in particular never answers "not required". -/
theorem c5_provider_error_fatal (config : TwoFactorAuthConfig) (e : String)
    (h1 : config.enabled = true)
    (h2 : config.methods.filter (fun m => m.enabled) ≠ []) :
    checkTwoFactorRequirements config (Except.error e) =
        Except.error "Failed to check 2FA status" ∧
      checkTwoFactorRequirements config (Except.error e) ≠
        Except.ok TwoFactorRequirement.notRequired := by
  have hlen : ¬ (config.methods.filter (fun m => m.enabled)).length = 0 := by
    simpa [List.length_eq_zero] using h2
  unfold checkTwoFactorRequirements
  simp [h1, hlen]

/-- Witness for C5 at a concrete enabled configuration and provider error. -/
theorem c5_provider_error_fatal_witness :
    checkTwoFactorRequirements
        ⟨true, [⟨TTwoFactorMethod.authenticator, true⟩]⟩ (Except.error "network error") =
        Except.error "Failed to check 2FA status" ∧
      checkTwoFactorRequirements
        ⟨true, [⟨TTwoFactorMethod.authenticator, true⟩]⟩ (Except.error "network error") ≠
        Except.ok TwoFactorRequirement.notRequired :=
  c5_provider_error_fatal ⟨true, [⟨TTwoFactorMethod.authenticator, true⟩]⟩
    "network error" rfl (by decide)

/-- The TOTP collection is empty exactly when no present TOTP factor has
status "verified". -/
theorem totpMethods_eq_nil_iff (data : Option ListFactorsData) :
    totpMethods data = [] ↔
      ∀ d, data = some d → ∀ l, d.totp = some l → ∀ f ∈ l, f.status ≠ "verified" := by
  cases data with
  | none => simp [totpMethods]
  | some d =>
    cases ht : d.totp with
    | none =>
      simp only [totpMethods, ht]
      constructor
      · intro _ d' hd' l hl
        injection hd' with hdd
        subst hdd
        rw [ht] at hl
        cases hl
      · intro _
        trivial
    | some l =>
      have hmatch : totpMethods (some d) = [] ↔
          l.filter (fun f => f.status == "verified") = [] := by
        simp only [totpMethods, ht]
        rcases hfil : l.filter (fun f => f.status == "verified") with _ | ⟨g, gs⟩ <;>
          simp [hfil]
      rw [hmatch, List.filter_eq_nil_iff]
      constructor
      · intro h d' hd' l' hl' f hf
        injection hd' with hdd
        subst hdd
        rw [ht] at hl'
        injection hl' with hll
        subst hll
        simpa using h f hf
      · intro h f hf
        simpa using h d rfl l ht f hf

/-- The SMS collection is empty exactly when no present phone factor has
status "verified". -/
theorem smsMethods_eq_nil_iff (data : Option ListFactorsData) :
    smsMethods data = [] ↔
      ∀ d, data = some d → ∀ l, d.phone = some l → ∀ f ∈ l, f.status ≠ "verified" := by
  cases data with
  | none => simp [smsMethods]
  | some d =>
    cases ht : d.phone with
    | none =>
      simp only [smsMethods, ht]
      constructor
      · intro _ d' hd' l hl
        injection hd' with hdd
        subst hdd
        rw [ht] at hl
        cases hl
      · intro _
        trivial
    | some l =>
      have hmatch : smsMethods (some d) = [] ↔
          l.filter (fun f => f.status == "verified") = [] := by
        simp only [smsMethods, ht]
        rcases hfil : l.filter (fun f => f.status == "verified") with _ | ⟨g, gs⟩ <;>
          simp [hfil]
      rw [hmatch, List.filter_eq_nil_iff]
      constructor
      · intro h d' hd' l' hl' f hf
        injection hd' with hdd
        subst hdd
        rw [ht] at hl'
        injection hl' with hll
        subst hll
        simpa using h f hf
      · intro h f hf
        simpa using h d rfl l ht f hf

/-- C6: on a successful provider answer the resolver returns "not required"
exactly when 2FA is disabled, or no method is enabled in configuration, or
the user has zero verified factors (unverified factors are ignored
entirely); in every other successful case it returns "required". -/
theorem c6_not_required_iff (config : TwoFactorAuthConfig) (data : Option ListFactorsData) :
    (checkTwoFactorRequirements config (Except.ok data) =
        Except.ok TwoFactorRequirement.notRequired ↔
      config.enabled = false ∨ config.methods.filter (fun m => m.enabled) = [] ∨
        availableMethodsOf data = []) ∧
    (availableMethodsOf data = [] ↔
      ∀ d, data = some d →
        (∀ l, d.totp = some l → ∀ f ∈ l, f.status ≠ "verified") ∧
        (∀ l, d.phone = some l → ∀ f ∈ l, f.status ≠ "verified")) ∧
    (config.enabled = true → config.methods.filter (fun m => m.enabled) ≠ [] →
      availableMethodsOf data ≠ [] →
      ∃ fid, checkTwoFactorRequirements config (Except.ok data) =
        Except.ok (TwoFactorRequirement.required fid (availableMethodsOf data))) := by
  refine ⟨?_, ?_, ?_⟩
  · constructor
    · intro h
      by_cases h1 : config.enabled = true
      · by_cases h2 : config.methods.filter (fun m => m.enabled) = []
        · exact Or.inr (Or.inl h2)
        · rw [check_enabled_eq config data h1 h2] at h
          by_cases hav : availableMethodsOf data = []
          · exact Or.inr (Or.inr hav)
          · obtain ⟨m, hm⟩ := getMostTrusted_isSome _ hav
            rw [hm] at h
            simp at h
      · left
        revert h1
        cases config.enabled <;> simp
    · intro h
      rcases h with h | h | h
      · simp [checkTwoFactorRequirements, h]
      · by_cases h1 : config.enabled = true
        · simp [checkTwoFactorRequirements, h1, h]
        · have hb : config.enabled = false := by revert h1; cases config.enabled <;> simp
          simp [checkTwoFactorRequirements, hb]
      · by_cases h1 : config.enabled = true
        · by_cases h2 : config.methods.filter (fun m => m.enabled) = []
          · simp [checkTwoFactorRequirements, h1, h2]
          · rw [check_enabled_eq config data h1 h2, h]
            simp [getMostTrustedTwoFactorMethod]
        · have hb : config.enabled = false := by revert h1; cases config.enabled <;> simp
          simp [checkTwoFactorRequirements, hb]
  · rw [show availableMethodsOf data = totpMethods data ++ smsMethods data from rfl,
      List.append_eq_nil, totpMethods_eq_nil_iff, smsMethods_eq_nil_iff]
    constructor
    · intro ⟨ha, hb⟩ d hd
      exact ⟨ha d hd, hb d hd⟩
    · intro h
      exact ⟨fun d hd => (h d hd).1, fun d hd => (h d hd).2⟩
  · intro h1 h2 hav
    obtain ⟨m, hm⟩ := getMostTrusted_isSome _ hav
    refine ⟨m.factorId, ?_⟩
    rw [check_enabled_eq config data h1 h2, hm]

/-- Witness for C6: one verified TOTP factor makes the resolver require
2FA. -/
theorem c6_not_required_iff_witness :
    ∃ fid, checkTwoFactorRequirements ⟨true, [⟨TTwoFactorMethod.authenticator, true⟩]⟩
        (Except.ok (some ⟨some [⟨"t1", "verified"⟩], none⟩)) =
      Except.ok (TwoFactorRequirement.required fid
        (availableMethodsOf (some ⟨some [⟨"t1", "verified"⟩], none⟩))) :=
  (c6_not_required_iff ⟨true, [⟨TTwoFactorMethod.authenticator, true⟩]⟩
      (some ⟨some [⟨"t1", "verified"⟩], none⟩)).2.2 rfl (by decide) (by decide)

/-- Inversion of a "required" result: the carried list is the collected one
and the carried factor id comes from the selected default method. -/
theorem check_required_inv (config : TwoFactorAuthConfig) (data : Option ListFactorsData)
    (fid : String) (ms : List AvailableMethod)
    (h : checkTwoFactorRequirements config (Except.ok data) =
      Except.ok (TwoFactorRequirement.required fid ms)) :
    ms = availableMethodsOf data ∧
      ∃ m, getMostTrustedTwoFactorMethod (some ms) = some m ∧ m.factorId = fid := by
  by_cases h1 : config.enabled = true
  · by_cases h2 : config.methods.filter (fun m => m.enabled) = []
    · simp [checkTwoFactorRequirements, h1, h2] at h
    · rw [check_enabled_eq config data h1 h2] at h
      cases hg : getMostTrustedTwoFactorMethod (some (availableMethodsOf data)) with
      | none =>
        rw [hg] at h
        simp at h
      | some m =>
        rw [hg] at h
        simp only [Except.ok.injEq, TwoFactorRequirement.required.injEq] at h
        obtain ⟨hfid, hms⟩ := h
        subst hms
        exact ⟨rfl, m, hg, hfid⟩
  · have hb : config.enabled = false := by revert h1; cases config.enabled <;> simp
    simp [checkTwoFactorRequirements, hb] at h

/-- Every collected method originates from a verified factor of the provider
answer, carrying the id of that factor. -/
theorem mem_availableMethodsOf (data : Option ListFactorsData) (m : AvailableMethod)
    (hm : m ∈ availableMethodsOf data) :
    ∃ d, data = some d ∧
      ((m.type = TTwoFactorMethod.authenticator ∧
          ∃ l, d.totp = some l ∧ ∃ f ∈ l, f.status = "verified" ∧ f.id = m.factorId) ∨
        (m.type = TTwoFactorMethod.sms ∧
          ∃ l, d.phone = some l ∧ ∃ f ∈ l, f.status = "verified" ∧ f.id = m.factorId)) := by
  unfold availableMethodsOf at hm
  rw [List.mem_append] at hm
  cases hm with
  | inl h =>
    cases data with
    | none => simp [totpMethods] at h
    | some d =>
      cases ht : d.totp with
      | none => simp [totpMethods, ht] at h
      | some l =>
        simp only [totpMethods, ht] at h
        rcases hfil : l.filter (fun f => f.status == "verified") with _ | ⟨f, fs⟩
        · rw [hfil] at h
          simp at h
        · rw [hfil] at h
          simp only [List.mem_singleton] at h
          subst h
          have hf : f ∈ l.filter (fun f => f.status == "verified") := by
            rw [hfil]
            exact List.mem_cons_self f fs
          rw [List.mem_filter] at hf
          exact ⟨d, rfl, Or.inl ⟨rfl, l, ht, f, hf.1, by simpa using hf.2, rfl⟩⟩
  | inr h =>
    cases data with
    | none => simp [smsMethods] at h
    | some d =>
      cases ht : d.phone with
      | none => simp [smsMethods, ht] at h
      | some l =>
        simp only [smsMethods, ht] at h
        rcases hfil : l.filter (fun f => f.status == "verified") with _ | ⟨f, fs⟩
        · rw [hfil] at h
          simp at h
        · rw [hfil] at h
          simp only [List.mem_singleton] at h
          subst h
          have hf : f ∈ l.filter (fun f => f.status == "verified") := by
            rw [hfil]
            exact List.mem_cons_self f fs
          rw [List.mem_filter] at hf
          exact ⟨d, rfl, Or.inr ⟨rfl, l, ht, f, hf.1, by simpa using hf.2, rfl⟩⟩

/-- C7: whenever the resolver answers "required", the carried factor id is
the factor id of one of the carried methods, every carried method originates
from the provider input factor set, and method selection never returns a
method absent from its input list. -/
theorem c7_required_sound :
    (∀ (config : TwoFactorAuthConfig) (data : Option ListFactorsData) (fid : String)
        (ms : List AvailableMethod),
      checkTwoFactorRequirements config (Except.ok data) =
          Except.ok (TwoFactorRequirement.required fid ms) →
      (∃ m ∈ ms, m.factorId = fid) ∧
        (∀ m ∈ ms,
          ∃ d, data = some d ∧
            ((m.type = TTwoFactorMethod.authenticator ∧
                ∃ l, d.totp = some l ∧ ∃ f ∈ l, f.status = "verified" ∧ f.id = m.factorId) ∨
              (m.type = TTwoFactorMethod.sms ∧
                ∃ l, d.phone = some l ∧ ∃ f ∈ l, f.status = "verified" ∧ f.id = m.factorId)))) ∧
    (∀ (ms : List AvailableMethod) (m : AvailableMethod),
      getMostTrustedTwoFactorMethod (some ms) = some m → m ∈ ms) := by
  constructor
  · intro config data fid ms h
    obtain ⟨hms, m, hm, hfid⟩ := check_required_inv config data fid ms h
    constructor
    · exact ⟨m, getMostTrusted_mem ms m hm, hfid⟩
    · intro m' hm'
      exact mem_availableMethodsOf data m' (hms ▸ hm')
  · exact getMostTrusted_mem

/-- Witness for C7 at a concrete one-factor provider answer. -/
theorem c7_required_sound_witness :
    ∃ m ∈ ([⟨TTwoFactorMethod.authenticator, "t1"⟩] : List AvailableMethod),
      m.factorId = "t1" :=
  (c7_required_sound.1 ⟨true, [⟨TTwoFactorMethod.authenticator, true⟩]⟩
      (some ⟨some [⟨"t1", "verified"⟩], none⟩) "t1"
      [⟨TTwoFactorMethod.authenticator, "t1"⟩] rfl).1

/-- C9: a non-empty method list whose types are all authenticator or sms
always yields a most-trusted method, and consequently the defensive
"No default 2FA method found" branch of the resolver is unreachable for all
inputs. -/
theorem c9_most_trusted_total :
    (∀ ms : List AvailableMethod, ms ≠ [] →
      (∀ m ∈ ms, m.type = TTwoFactorMethod.authenticator ∨ m.type = TTwoFactorMethod.sms) →
      ∃ m, getMostTrustedTwoFactorMethod (some ms) = some m) ∧
    (∀ (config : TwoFactorAuthConfig) (fr : Except String (Option ListFactorsData)),
      checkTwoFactorRequirements config fr ≠ Except.error "No default 2FA method found") := by
  constructor
  · intro ms h _
    exact getMostTrusted_isSome ms h
  · intro config fr
    by_cases h1 : config.enabled = true
    · by_cases h2 : config.methods.filter (fun m => m.enabled) = []
      · cases fr <;> simp [checkTwoFactorRequirements, h1, h2]
      · have hlen : ¬ (config.methods.filter (fun m => m.enabled)).length = 0 := by
          simpa [List.length_eq_zero] using h2
        cases fr with
        | error e =>
          unfold checkTwoFactorRequirements
          simp [h1, hlen]
        | ok data =>
          rw [check_enabled_eq config data h1 h2]
          cases hg : getMostTrustedTwoFactorMethod (some (availableMethodsOf data)) <;> simp
    · have hb : config.enabled = false := by revert h1; cases config.enabled <;> simp
      cases fr <;> simp [checkTwoFactorRequirements, hb]

/-- Witness for C9 on a one-element sms-only list. -/
theorem c9_most_trusted_total_witness :
    ∃ m, getMostTrustedTwoFactorMethod
        (some [⟨TTwoFactorMethod.sms, "p1"⟩]) = some m :=
  c9_most_trusted_total.1 [⟨TTwoFactorMethod.sms, "p1"⟩] (by decide)
    (by intro m hm; simp at hm; subst hm; exact Or.inr rfl)

/-- The length of a string is the length of its character list. -/
theorem string_length_data (s : String) : s.length = s.data.length := rfl

/-- The embedded regex of `phoneSchema` recognises exactly the amended E.164
shape. -/
theorem regexMatch_eq_amendedShape : phoneRegexMatch = e164AmendedShape := rfl

/-- The `min(1)` constraint of `phoneSchema` is subsumed by the regex, so
the validator verdict is the regex verdict. -/
theorem validatePhoneNumber_eq_regex (s : String) :
    validatePhoneNumber s = phoneRegexMatch s := by
  unfold validatePhoneNumber
  cases hreg : phoneRegexMatch s
  · simp
  · have hd : s.data ≠ [] := by
      intro hnil
      unfold phoneRegexMatch at hreg
      rw [hnil] at hreg
      simp at hreg
    have hlen : 1 ≤ s.length := by
      rw [string_length_data]
      cases hcase : s.data with
      | nil => exact absurd hcase hd
      | cons c rest => simp
    simp [hlen]

/-- A string that does not start with the plus character fails the regex. -/
theorem phoneRegex_false_of_no_plus (s : String) (h : s.data.head? ≠ some '+') :
    phoneRegexMatch s = false := by
  unfold phoneRegexMatch
  split
  · next d rest heq =>
    rw [heq] at h
    simp at h
  · rfl

/-- C8 (counterexample): "+01" is a "+" followed by 2 digits — the claimed
E.164 shape — yet the validator rejects it, because the regex of the code
demands a first digit in 1-9. -/
theorem c8_counterexample :
    e164SpecShape "+01" = true ∧ validatePhoneNumber "+01" = false := by decide

/-- C8 (amended): the phone validator accepts exactly the strings made of a
"+", one digit in 1-9 and 1 to 14 further digits; it rejects every string
not starting with "+" (in particular "1234567890") and accepts
"+1234567890". -/
theorem c8_amended_phone_validator :
    (∀ s, validatePhoneNumber s = true ↔ e164AmendedShape s = true) ∧
    (∀ s, s.data.head? ≠ some '+' → validatePhoneNumber s = false) ∧
    validatePhoneNumber "1234567890" = false ∧
    validatePhoneNumber "+1234567890" = true := by
  refine ⟨?_, ?_, by decide, by decide⟩
  · intro s
    rw [validatePhoneNumber_eq_regex, regexMatch_eq_amendedShape]
  · intro s h
    rw [validatePhoneNumber_eq_regex]
    exact phoneRegex_false_of_no_plus s h

/-- Witness for C8 (amended) at the two-digit number "+12". -/
theorem c8_amended_phone_validator_witness : validatePhoneNumber "+12" = true :=
  (c8_amended_phone_validator.1 "+12").mpr (by decide)

/-- C1 (counterexample): two sign-up requests that both reach the provider
call receive different responses depending on whether the email is already
registered — an existing account (zero identities on the returned user)
draws a 400 naming the registration, a fresh account draws the empty 200 —
so the sign-up handler does not return a uniform success response. -/
theorem c1_counterexample :
    signupPOST false none ⟨some 0, none⟩ =
        ApiResponse.badRequest
          "This email is already registered. Please try logging in instead." ∧
      signupPOST false none ⟨some 1, none⟩ = ApiResponse.okEmpty ∧
      signupPOST false none ⟨some 0, none⟩ ≠ signupPOST false none ⟨some 1, none⟩ := by
  refine ⟨rfl, rfl, by decide⟩

/-- C1 (amended): only the password-reset handler suppresses provider-error
detail and returns a uniform success response for every request reaching the
provider call; the sign-up handler instead reveals an already-registered
email with a dedicated 400 response and surfaces the provider error message
otherwise. -/
theorem c1_amended_enumeration :
    (∀ resetError : Option String,
      forgotPasswordPOST false true resetError = ApiResponse.okEmpty) ∧
    signupPOST false none ⟨some 0, none⟩ =
      ApiResponse.badRequest
        "This email is already registered. Please try logging in instead." ∧
    (∀ msg : String,
      signupPOST false none ⟨some 1, some msg⟩ = ApiResponse.badRequest msg) := by
  refine ⟨?_, rfl, ?_⟩
  · intro e
    cases e <;> rfl
  · intro msg
    rfl
